import Mathlib

/-!
Shallow embedding of the cot-pulse-backend core: the user record store,
the password-reset token manager, the signup route, the credential issuer,
and the Stripe webhook reconciler.  Definitions are translated from the
JavaScript source (src/db.js with the User model, src/routes/auth.js,
src/routes/passwordReset.js, the server file and the Stripe routes file).
Timestamps are modelled as natural numbers (epoch milliseconds); the source
stores ISO-8601 strings, and both Date comparison on such strings and
lexicographic comparison agree with numeric order.  SHA-256 and bcrypt are
modelled as abstract function parameters, since only equality of their
outputs is ever observed by the code.
-/

/-- HTTP response as produced by the Express handlers: a status code and the
JSON body exactly as serialized by res.json / res.send. -/
structure HttpResponse where
  status : Nat
  body : String
deriving DecidableEq, Repr

/-- Row of the users table (src/db.js, setupTables).  Columns irrelevant to
the verified claims (phone, phone_verified, email_verified) are omitted;
nullable columns are Option. -/
structure UserRow where
  id : String
  email : String
  password_hash : String
  name : Option String
  subscription_tier : String
  subscription_status : String
  stripe_customer_id : Option String
  created_at : Nat
  updated_at : Nat
  last_login : Option Nat
deriving DecidableEq, Repr

/-- Row of the password_reset_tokens table: user_id TEXT PRIMARY KEY,
token_hash TEXT NOT NULL, expires_at TIMESTAMP NOT NULL (src/db.js). -/
structure ResetTokenRow where
  user_id : String
  token_hash : String
  expires_at : Nat
deriving DecidableEq, Repr

/-- The persisted store: the users table and the password_reset_tokens
table (the other feature tables are outside the verified core). -/
structure DBState where
  users : List UserRow
  resetTokens : List ResetTokenRow
deriving DecidableEq, Repr

/-- JavaScript toLowerCase, restricted to the ASCII range the claims use. -/
def toLowerCase (s : String) : String := String.mk (s.toList.map Char.toLower)

/-- JavaScript trim: strip whitespace from both ends. -/
def jsTrim (s : String) : String :=
  String.mk
    (((s.toList.dropWhile Char.isWhitespace).reverse.dropWhile Char.isWhitespace).reverse)

/-- Email normalization as performed by the User model before storing or
looking up: email.toLowerCase().trim(). -/
def normalizeEmail (s : String) : String := jsTrim (toLowerCase s)

/-- Character class of the signup email regex: anything that is neither
whitespace nor the at sign. -/
def okEmailChar (c : Char) : Bool := !c.isWhitespace && c != '@'

/-- Helper for the email regex: some dot sits strictly inside the list, so
that both sides of it are nonempty. -/
def hasInnerDot (l : List Char) : Bool :=
  (List.range l.length).any (fun i =>
    l.getD i ' ' = '.' && decide (1 ≤ i) && decide (i + 1 < l.length))

/-- The signup email check from src/routes/auth.js: the anchored regex
requiring a nonempty run without whitespace or at signs, an at sign, then a
nonempty run, a dot, and a final nonempty run, with no whitespace anywhere.
The local part may not contain an at sign, so the at sign matched is the
first one in the string. -/
def emailRegexTest (s : String) : Bool :=
  let cs := s.toList
  match cs.findIdx? (fun c => c = '@') with
  | none => false
  | some i =>
    let localPart := cs.take i
    let rest := cs.drop (i + 1)
    !localPart.isEmpty && localPart.all okEmailChar &&
      rest.all okEmailChar && hasInnerDot rest

/-- SQL equality of a nullable column against a nullable parameter: NULL
compares equal to nothing (used for stripe_customer_id lookups). -/
def sqlEq (col par : Option String) : Bool :=
  match col, par with
  | some a, some b => a = b
  | _, _ => false

/-- SQL equality of the non-null id column against a possibly NULL
parameter (node-postgres sends an undefined JS value as NULL, and
id = NULL matches no row). -/
def sqlEqId (id : String) (par : Option String) : Bool :=
  match par with
  | some b => id = b
  | none => false

/-- User.findByEmail: SELECT * FROM users WHERE email = ? with the
normalized email as parameter. -/
def findByEmail (st : DBState) (email : String) : Option UserRow :=
  st.users.find? (fun r => r.email = normalizeEmail email)

/-- SELECT id FROM users WHERE stripe_customer_id = ? as issued by the
webhook handlers. -/
def findUserByStripeCustomerId (st : DBState) (cust : Option String) : Option UserRow :=
  st.users.find? (fun r => sqlEq r.stripe_customer_id cust)

/-- The statics defined on the User model class in the source.  Note that
updatePassword is not among them, although src/routes/passwordReset.js
calls it. -/
def userModelMethods : List String :=
  ["create", "findByEmail", "findById", "verifyPassword", "updatePhone",
   "markPhoneVerified", "updateLastLogin", "updateSubscription",
   "updateStripeCustomerId", "findByStripeCustomerId", "updateProfile",
   "delete"]

/-- Store-layer duplicate-key condition surfaced by User.create. -/
inductive DbError
| duplicateKey
deriving DecidableEq, Repr

/-- User.create: hashes the password, generates an id, inserts the row with
the normalized email; the UNIQUE constraint on email turns a duplicate into
the distinguishable duplicate-key error.  Defaults from the schema: tier
free, status active, stripe_customer_id NULL. -/
def userCreate (bcryptHash : String → String) (genId : String) (st : DBState)
    (email password : String) (name : Option String) (now : Nat) :
    Except DbError (DBState × UserRow) :=
  let norm := normalizeEmail email
  if st.users.any (fun r => r.email = norm) then
    .error .duplicateKey
  else
    let row : UserRow :=
      { id := genId, email := norm, password_hash := bcryptHash password,
        name := name, subscription_tier := "free",
        subscription_status := "active", stripe_customer_id := none,
        created_at := now, updated_at := now, last_login := none }
    .ok ({ st with users := st.users ++ [row] }, row)

/-- Upsert into password_reset_tokens: INSERT ... ON CONFLICT (user_id) DO
UPDATE SET token_hash, expires_at (src/routes/passwordReset.js). -/
def upsertResetToken (st : DBState) (uid h : String) (exp : Nat) : DBState :=
  if st.resetTokens.any (fun r => r.user_id = uid) then
    { st with resetTokens := st.resetTokens.map (fun r =>
        if r.user_id = uid then { r with token_hash := h, expires_at := exp } else r) }
  else
    { st with resetTokens := st.resetTokens ++ [⟨uid, h, exp⟩] }

/-- SELECT ... FROM password_reset_tokens WHERE token_hash = ?. -/
def findResetTokenByHash (st : DBState) (h : String) : Option ResetTokenRow :=
  st.resetTokens.find? (fun r => r.token_hash = h)

/-- DELETE FROM password_reset_tokens WHERE token_hash = ?. -/
def deleteResetTokenByHash (st : DBState) (h : String) : DBState :=
  { st with resetTokens := st.resetTokens.filter (fun r => r.token_hash ≠ h) }

/-- DELETE FROM password_reset_tokens WHERE user_id = ?. -/
def deleteResetTokenByUserId (st : DBState) (uid : String) : DBState :=
  { st with resetTokens := st.resetTokens.filter (fun r => r.user_id ≠ uid) }

/-- Token expiration window from src/routes/passwordReset.js. -/
def TOKEN_EXPIRATION_MS : Nat := 60 * 60 * 1000

def bodyEmailRequired : String :=
  "\x7b\"success\":false,\"error\":\"Email is required\"\x7d"

def bodyForgotSuccess : String :=
  "\x7b\"success\":true,\"message\":\"If an account exists with this email, you will receive a password reset link.\"\x7d"

def bodyTokenPasswordRequired : String :=
  "\x7b\"success\":false,\"error\":\"Token and new password are required\"\x7d"

def bodyPasswordTooShort : String :=
  "\x7b\"success\":false,\"error\":\"Password must be at least 8 characters\"\x7d"

def bodyInvalidResetToken : String :=
  "\x7b\"success\":false,\"error\":\"Invalid or expired reset token\"\x7d"

def bodyResetTokenExpired : String :=
  "\x7b\"success\":false,\"error\":\"Reset token has expired. Please request a new one.\"\x7d"

def bodyFailedReset : String :=
  "\x7b\"success\":false,\"error\":\"Failed to reset password\"\x7d"

def bodyVerifyTokenRequired : String :=
  "\x7b\"success\":false,\"valid\":false,\"error\":\"Token is required\"\x7d"

def bodyValidFalse : String :=
  "\x7b\"success\":true,\"valid\":false\x7d"

def bodyValidTrue : String :=
  "\x7b\"success\":true,\"valid\":true\x7d"

def bodyEmailPasswordRequired : String :=
  "\x7b\"success\":false,\"error\":\"Email and password are required\"\x7d"

def bodyInvalidEmail : String :=
  "\x7b\"success\":false,\"error\":\"Please enter a valid email address\"\x7d"

def bodyDuplicateEmail : String :=
  "\x7b\"success\":false,\"error\":\"An account with this email already exists\"\x7d"

def bodyAccessTokenRequired : String :=
  "\x7b\"success\":false,\"error\":\"Access token required\"\x7d"

def bodyInvalidOrExpiredToken : String :=
  "\x7b\"success\":false,\"error\":\"Invalid or expired token\"\x7d"

def bodyWebhookReceived : String :=
  "\x7b\"received\":true\x7d"

/-- Body of the webhook 400 rejection.  The source interpolates the message
of the error thrown by the signature library; that text is abstracted to a
fixed phrase, since no claim observes it. -/
def bodyWebhookSigError : String :=
  "Webhook Error: signature verification failed"

/-- POST /api/auth/forgot-password (src/routes/passwordReset.js).  The
fresh random secret (crypto.randomBytes) and the SHA-256 hex digest are
parameters: freshToken is the generated secret, hash the digest function.
The email dispatch is external and does not influence store or response
(an email failure is only logged). -/
def forgotPassword (hash : String → String) (st : DBState) (email : String)
    (freshToken : String) (now : Nat) : DBState × HttpResponse :=
  if email = "" then
    (st, ⟨400, bodyEmailRequired⟩)
  else
    match findByEmail st email with
    | none => (st, ⟨200, bodyForgotSuccess⟩)
    | some user =>
      let tokenHash := hash freshToken
      let expiresAt := now + TOKEN_EXPIRATION_MS
      (upsertResetToken st user.id tokenHash expiresAt, ⟨200, bodyForgotSuccess⟩)

/-- POST /api/auth/reset-password (src/routes/passwordReset.js).  After the
expiry check the source calls User.updatePassword, a static the User model
in src/db.js does not define (see userModelMethods); in JavaScript that
call throws a TypeError which the catch block answers with a 500 and the
fixed failure body, leaving the store untouched (no mutation precedes the
call in that branch). -/
def resetPassword (hash : String → String) (st : DBState) (token password : String)
    (now : Nat) : DBState × HttpResponse :=
  if token = "" ∨ password = "" then
    (st, ⟨400, bodyTokenPasswordRequired⟩)
  else if password.length < 8 then
    (st, ⟨400, bodyPasswordTooShort⟩)
  else
    let tokenHash := hash token
    match findResetTokenByHash st tokenHash with
    | none => (st, ⟨400, bodyInvalidResetToken⟩)
    | some rcd =>
      if rcd.expires_at < now then
        (deleteResetTokenByHash st tokenHash, ⟨400, bodyResetTokenExpired⟩)
      else
        (st, ⟨500, bodyFailedReset⟩)

/-- GET /api/auth/verify-reset-token (src/routes/passwordReset.js): a pure
read of the token table, answering a boolean only. -/
def verifyResetToken (hash : String → String) (st : DBState) (token : String)
    (now : Nat) : DBState × HttpResponse :=
  if token = "" then
    (st, ⟨400, bodyVerifyTokenRequired⟩)
  else
    match findResetTokenByHash st (hash token) with
    | none => (st, ⟨200, bodyValidFalse⟩)
    | some rcd =>
      if rcd.expires_at < now then (st, ⟨200, bodyValidFalse⟩)
      else (st, ⟨200, bodyValidTrue⟩)

/-- JSON string literal rendering; the concrete inputs of the claims contain
no characters that JSON.stringify would escape. -/
def jsonStr (s : String) : String := "\"" ++ s ++ "\""

/-- Body of the 201 signup response; JSON.stringify omits the name key when
name is undefined. -/
def signupSuccessBody (id email : String) (name : Option String) (token : String) : String :=
  "\x7b\"success\":true,\"message\":\"Account created successfully!\",\"token\":"
    ++ jsonStr token ++ ",\"user\":\x7b\"id\":" ++ jsonStr id
    ++ ",\"email\":" ++ jsonStr email
    ++ (match name with
        | some n => ",\"name\":" ++ jsonStr n
        | none => "")
    ++ "\x7d\x7d"

/-- POST /api/auth/signup (src/routes/auth.js).  bcryptHash models
bcrypt.hash, genId models crypto.randomUUID, signJwt models the string
output of jwt.sign for the created user. -/
def signup (bcryptHash : String → String) (signJwt : String → String → String)
    (genId : String) (st : DBState) (email password : String)
    (name : Option String) (now : Nat) : DBState × HttpResponse :=
  if email = "" ∨ password = "" then
    (st, ⟨400, bodyEmailPasswordRequired⟩)
  else if emailRegexTest email = false then
    (st, ⟨400, bodyInvalidEmail⟩)
  else if password.length < 8 then
    (st, ⟨400, bodyPasswordTooShort⟩)
  else
    match userCreate bcryptHash genId st email password name now with
    | .error _ => (st, ⟨409, bodyDuplicateEmail⟩)
    | .ok (st', row) =>
      (st', ⟨201, signupSuccessBody row.id row.email row.name (signJwt row.id row.email)⟩)

/-- Modelled from the spec: the credential payload of section 4.2 — the
jsonwebtoken library used by src/routes/auth.js is not part of the
repository source.  jwt.sign embeds userId, email and the issue instant. -/
structure JwtPayload where
  userId : String
  email : String
  iat : Nat
deriving DecidableEq, Repr

/-- Fixed validity window of the issued credential: JWT_EXPIRATION is 7d in
src/routes/auth.js, counted here in seconds as the library does. -/
def JWT_WINDOW_SECONDS : Nat := 7 * 24 * 60 * 60

/-- Modelled from the spec: a session credential is either a structurally
well-formed signed token (payload plus signature bytes) or a blob that does
not decode at all. -/
inductive JwtToken
| signed (payload : JwtPayload) (sig : String)
| malformed (raw : String)
deriving DecidableEq, Repr

/-- Modelled from the spec: jwt.sign with the process-wide secret; mac
abstracts HMAC-SHA256 over the encoded payload. -/
def jwtSign (mac : String → JwtPayload → String) (secret : String)
    (userId email : String) (iat : Nat) : JwtToken :=
  .signed ⟨userId, email, iat⟩ (mac secret ⟨userId, email, iat⟩)

/-- Outcome of verification: the recovered identity, or one undivided
Invalid outcome. -/
inductive VerifyResult
| ok (userId email : String)
| invalid
deriving DecidableEq, Repr

/-- Modelled from the spec: jwt.verify — signature check then expiry check;
a malformed structure, a wrong signature and an elapsed window all collapse
to the single invalid constructor. -/
def jwtVerify (mac : String → JwtPayload → String) (secret : String) (now : Nat) :
    JwtToken → VerifyResult
| .malformed _ => .invalid
| .signed p s =>
  if s ≠ mac secret p then .invalid
  else if p.iat + JWT_WINDOW_SECONDS ≤ now then .invalid
  else .ok p.userId p.email

/-- Result of the authentication middleware: either the request proceeds
carrying the decoded identity, or it is halted with a response. -/
inductive AuthOutcome
| proceed (userId email : String)
| halt (resp : HttpResponse)
deriving DecidableEq, Repr

/-- authenticateToken middleware (src/routes/auth.js): missing header gives
401; any verification error whatsoever gives the one fixed 403 body. -/
def authenticateToken (mac : String → JwtPayload → String) (secret : String)
    (now : Nat) (token? : Option JwtToken) : AuthOutcome :=
  match token? with
  | none => .halt ⟨401, bodyAccessTokenRequired⟩
  | some t =>
    match jwtVerify mac secret now t with
    | .invalid => .halt ⟨403, bodyInvalidOrExpiredToken⟩
    | .ok uid em => .proceed uid em

/-- Wrapper marking a JavaScript value that is a still-pending promise: the
Stripe webhook handlers invoke the async db.get without await, so the bound
variable holds the promise object, not the row. -/
structure JsPromise (α : Type) where
  pending : α
deriving DecidableEq, Repr

/-- A promise object, like any JavaScript object, is truthy. -/
def JsPromise.truthy {α : Type} (_ : JsPromise α) : Bool := true

/-- Reading the id property of a promise object yields undefined (modelled
as none; node-postgres then binds the parameter as NULL). -/
def JsPromise.fieldId {α : Type} (_ : JsPromise α) : Option String := none

/-- The subscription object of a Stripe subscription event: the userId put
into metadata at checkout-session creation, the external status, and the
customer reference. -/
structure SubscriptionObj where
  metadata_userId : Option String
  status : String
  customer : Option String
deriving DecidableEq, Repr

/-- The checkout session object of a checkout.session.completed event. -/
structure CheckoutSession where
  metadata_userId : Option String
  customer : Option String
deriving DecidableEq, Repr

/-- The invoice object of an invoice.payment_failed event. -/
structure InvoiceObj where
  customer : Option String
deriving DecidableEq, Repr

/-- Parsed webhook event, one variant per case of the switch in
handleWebhook plus the default. -/
inductive StripeEvent
| checkoutSessionCompleted (s : CheckoutSession)
| subscriptionCreated (s : SubscriptionObj)
| subscriptionUpdated (s : SubscriptionObj)
| subscriptionDeleted (s : SubscriptionObj)
| invoicePaymentFailed (i : InvoiceObj)
| other (eventType : String)
deriving DecidableEq, Repr

/-- handleCheckoutComplete: with a userId in the session metadata, set the
user to pro and active and record the customer reference; otherwise only a
warning is logged. -/
def handleCheckoutComplete (st : DBState) (s : CheckoutSession) (now : Nat) : DBState :=
  match s.metadata_userId with
  | some uid =>
    { st with users := st.users.map (fun r =>
        if r.id = uid then
          { r with subscription_tier := "pro", subscription_status := "active",
                   stripe_customer_id := s.customer, updated_at := now }
        else r) }
  | none => st

/-- handleSubscriptionUpdate: tier is pro exactly for active or trialing,
free otherwise; the stored status is the ternary of the source, which maps
active to active and anything else to itself. -/
def handleSubscriptionUpdate (st : DBState) (sub : SubscriptionObj) (now : Nat) : DBState :=
  match sub.metadata_userId with
  | none => st
  | some uid =>
    let tier := if sub.status = "active" ∨ sub.status = "trialing" then "pro" else "free"
    let subStatus := if sub.status = "active" then "active" else sub.status
    { st with users := st.users.map (fun r =>
        if r.id = uid then
          { r with subscription_tier := tier, subscription_status := subStatus,
                   updated_at := now }
        else r) }

/-- handleSubscriptionCanceled.  The userId branch downgrades that user.
The fallback branch of the source reads the customer lookup without
awaiting the async db.get: the bound value is a pending promise, the guard
on it always passes (objects are truthy), and the id property read off the
promise is undefined, so the UPDATE binds id = NULL and matches no row. -/
def handleSubscriptionCanceled (st : DBState) (sub : SubscriptionObj) (now : Nat) : DBState :=
  match sub.metadata_userId with
  | some uid =>
    { st with users := st.users.map (fun r =>
        if r.id = uid then
          { r with subscription_tier := "free", subscription_status := "canceled",
                   updated_at := now }
        else r) }
  | none =>
    let user : JsPromise (Option UserRow) :=
      ⟨findUserByStripeCustomerId st sub.customer⟩
    if user.truthy then
      { st with users := st.users.map (fun r =>
          if sqlEqId r.id user.fieldId then
            { r with subscription_tier := "free", subscription_status := "canceled",
                     updated_at := now }
          else r) }
    else st

/-- handlePaymentFailed: a read and a log line, no mutation. -/
def handlePaymentFailed (st : DBState) (_ : InvoiceObj) : DBState := st

/-- The switch of handleWebhook dispatching on the event type; the default
branch only logs. -/
def dispatchEvent (st : DBState) (ev : StripeEvent) (now : Nat) : DBState :=
  match ev with
  | .checkoutSessionCompleted s => handleCheckoutComplete st s now
  | .subscriptionCreated s => handleSubscriptionUpdate st s now
  | .subscriptionUpdated s => handleSubscriptionUpdate st s now
  | .subscriptionDeleted s => handleSubscriptionCanceled st s now
  | .invoicePaymentFailed i => handlePaymentFailed st i
  | .other _ => st

/-- handleWebhook: stripe.webhooks.constructEvent verifies the signature
header against HMAC of the shared secret over the raw body (hmac abstracts
the scheme) and parses the body (parse abstracts JSON decoding); a failed
check answers 400 before any dispatch.  The Bool records whether the event
switch ran. -/
def handleWebhook (hmac : String → String → String) (secret : String)
    (parse : String → StripeEvent) (st : DBState) (rawBody sig : String)
    (now : Nat) : DBState × HttpResponse × Bool :=
  if sig = hmac secret rawBody then
    (dispatchEvent st (parse rawBody) now, ⟨200, bodyWebhookReceived⟩, true)
  else
    (st, ⟨400, bodyWebhookSigError⟩, false)

/-- Projection forgetting the updated_at timestamp, which every transition
rewrites to the wall clock of its own application. -/
def eraseUpdatedAt (r : UserRow) : UserRow := { r with updated_at := 0 }

/-- Concrete stand-in for the SHA-256 hex digest, injective on the inputs
used below. -/
def c1Hash : String → String := fun s => "sha256:" ++ s

def c1User : UserRow :=
  { id := "u1", email := "a@b.com", password_hash := "oldhash", name := none,
    subscription_tier := "free", subscription_status := "active",
    stripe_customer_id := none, created_at := 0, updated_at := 0,
    last_login := none }

/-- Store holding one user and one unexpired reset token for that user. -/
def c1State : DBState :=
  { users := [c1User],
    resetTokens := [⟨"u1", c1Hash "secret-token-1", 2000⟩] }

def c2User : UserRow :=
  { id := "u1", email := "a@b.com", password_hash := "h", name := none,
    subscription_tier := "pro", subscription_status := "active",
    stripe_customer_id := some "cus_1", created_at := 0, updated_at := 0,
    last_login := none }

def c2State : DBState := { users := [c2User], resetTokens := [] }

/-- A subscription-deleted payload carrying no userId in its metadata but
whose customer field matches the stored reference of c2User. -/
def c2Sub : SubscriptionObj :=
  { metadata_userId := none, status := "canceled", customer := some "cus_1" }

def w3Hmac : String → String → String := fun s b => s ++ "|" ++ b

def w5User : UserRow :=
  { id := "u1", email := "a@b.com", password_hash := "h", name := none,
    subscription_tier := "pro", subscription_status := "active",
    stripe_customer_id := some "cus_1", created_at := 0, updated_at := 0,
    last_login := none }

def w5State : DBState := { users := [w5User], resetTokens := [] }

/-- A subscription update carrying a status value outside the recognized
set. -/
def w5Sub : SubscriptionObj :=
  { metadata_userId := some "u1", status := "paused", customer := some "cus_1" }

def w6Mac : String → JwtPayload → String :=
  fun sec p => sec ++ "." ++ p.userId ++ "." ++ p.email ++ "." ++ toString p.iat

def w7Hash : String → String := fun s => "sha256:" ++ s

def w7User : UserRow :=
  { id := "u1", email := "a@b.com", password_hash := "h", name := none,
    subscription_tier := "free", subscription_status := "active",
    stripe_customer_id := none, created_at := 0, updated_at := 0,
    last_login := none }

def w7State : DBState := { users := [w7User], resetTokens := [] }

def w8Hash : String → String := fun s => "sha256:" ++ s

def w8User : UserRow :=
  { id := "u1", email := "a@b.com", password_hash := "h", name := none,
    subscription_tier := "free", subscription_status := "active",
    stripe_customer_id := none, created_at := 0, updated_at := 0,
    last_login := none }

def w8State : DBState := { users := [w8User], resetTokens := [] }

def c9User : UserRow :=
  { id := "u1", email := "a@b.com", password_hash := "h", name := none,
    subscription_tier := "free", subscription_status := "active",
    stripe_customer_id := none, created_at := 0, updated_at := 0,
    last_login := none }

def c9State : DBState := { users := [c9User], resetTokens := [] }

def c9BcryptHash : String → String := fun s => "bcrypt:" ++ s

def c9SignJwt : String → String → String := fun uid em => uid ++ ":" ++ em

def w10Hash : String → String := fun s => "sha256:" ++ s

/-- Store holding one token row whose expiry instant 100 is already in the
past at probe time 200. -/
def w10State : DBState :=
  { users := [],
    resetTokens := [⟨"u1", w10Hash "tok-1", 100⟩] }

/-- C1: the spec says the consume operation updates the credential, deletes
the token row and succeeds on a valid unexpired token with a long-enough
password.  The code instead calls User.updatePassword, a method the User
model never defines, so the request dies in the catch block: status 500 and
a completely unchanged store — the token row survives and the password hash
is untouched. -/
theorem resetPassword_consume_is_broken :
    (resetPassword c1Hash c1State "secret-token-1" "newpassword1" 1000).2.status = 500 ∧
    (resetPassword c1Hash c1State "secret-token-1" "newpassword1" 1000).1 = c1State ∧
    "updatePassword" ∉ userModelMethods := by
  refine ⟨by decide, by decide, by decide⟩

/-- C2: the spec says a subscription-deleted event without a user reference
resolves the user through the stored external customer reference and
downgrades them to free and canceled.  The code never awaits the customer
lookup, so the update matches no row: the store is unchanged and the user
keeps tier pro. -/
theorem subscriptionCanceled_customer_fallback_is_broken :
    handleSubscriptionCanceled c2State c2Sub 5 = c2State ∧
    ∀ r ∈ (handleSubscriptionCanceled c2State c2Sub 5).users,
      r.subscription_tier = "pro" ∧ r.subscription_status = "active" := by
  refine ⟨by decide, by decide⟩

/-- C3: a webhook delivery whose signature does not verify against the
shared secret and the delivered raw body is answered 400, the store is
untouched (no table changes) and the event-type switch never runs. -/
theorem handleWebhook_bad_signature_rejected
    (hmac : String → String → String) (secret : String)
    (parse : String → StripeEvent) (st : DBState) (rawBody sig : String)
    (now : Nat) (h : sig ≠ hmac secret rawBody) :
    (handleWebhook hmac secret parse st rawBody sig now).1 = st ∧
    (handleWebhook hmac secret parse st rawBody sig now).2.1.status = 400 ∧
    (handleWebhook hmac secret parse st rawBody sig now).2.2 = false := by
  simp [handleWebhook, h]

/-- Witness for C3 at a concrete input: the signature is computed over a
body different from the delivered one. -/
theorem handleWebhook_bad_signature_rejected_witness :
    (w3Hmac "sec" "other-body" ≠ w3Hmac "sec" "body") ∧
    ((handleWebhook w3Hmac "sec" (fun _ => StripeEvent.other "x") c2State "body"
        (w3Hmac "sec" "other-body") 7).1 = c2State ∧
      (handleWebhook w3Hmac "sec" (fun _ => StripeEvent.other "x") c2State "body"
        (w3Hmac "sec" "other-body") 7).2.1.status = 400 ∧
      (handleWebhook w3Hmac "sec" (fun _ => StripeEvent.other "x") c2State "body"
        (w3Hmac "sec" "other-body") 7).2.2 = false) :=
  ⟨by decide,
   handleWebhook_bad_signature_rejected w3Hmac "sec" (fun _ => StripeEvent.other "x")
     c2State "body" (w3Hmac "sec" "other-body") 7 (by decide)⟩

/-- C4: every reconciler transition is an idempotent upsert keyed by user
id: applying the dispatch of any event twice, at any two application
instants, leaves every user row equal to the once-applied row up to the
updated_at wall-clock stamp (so in particular tier and status agree), and
the token table is never touched. -/
theorem dispatchEvent_idempotent (st : DBState) (ev : StripeEvent) (t1 t2 : Nat) :
    (dispatchEvent (dispatchEvent st ev t1) ev t2).users.map eraseUpdatedAt =
      (dispatchEvent st ev t1).users.map eraseUpdatedAt ∧
    (dispatchEvent (dispatchEvent st ev t1) ev t2).resetTokens =
      (dispatchEvent st ev t1).resetTokens := by
  cases ev with
  | checkoutSessionCompleted s =>
    cases hm : s.metadata_userId with
    | none => simp [dispatchEvent, handleCheckoutComplete, hm]
    | some uid =>
      constructor
      · simp only [dispatchEvent, handleCheckoutComplete, hm, List.map_map]
        congr 1
        funext r
        by_cases h : r.id = uid <;> simp [Function.comp, h, eraseUpdatedAt]
      · simp [dispatchEvent, handleCheckoutComplete, hm]
  | subscriptionCreated s =>
    cases hm : s.metadata_userId with
    | none => simp [dispatchEvent, handleSubscriptionUpdate, hm]
    | some uid =>
      constructor
      · simp only [dispatchEvent, handleSubscriptionUpdate, hm, List.map_map]
        congr 1
        funext r
        by_cases h : r.id = uid <;> simp [Function.comp, h, eraseUpdatedAt]
      · simp [dispatchEvent, handleSubscriptionUpdate, hm]
  | subscriptionUpdated s =>
    cases hm : s.metadata_userId with
    | none => simp [dispatchEvent, handleSubscriptionUpdate, hm]
    | some uid =>
      constructor
      · simp only [dispatchEvent, handleSubscriptionUpdate, hm, List.map_map]
        congr 1
        funext r
        by_cases h : r.id = uid <;> simp [Function.comp, h, eraseUpdatedAt]
      · simp [dispatchEvent, handleSubscriptionUpdate, hm]
  | subscriptionDeleted s =>
    cases hm : s.metadata_userId with
    | none =>
      simp [dispatchEvent, handleSubscriptionCanceled, hm, JsPromise.truthy,
        JsPromise.fieldId, sqlEqId]
    | some uid =>
      constructor
      · simp only [dispatchEvent, handleSubscriptionCanceled, hm, List.map_map]
        congr 1
        funext r
        by_cases h : r.id = uid <;> simp [Function.comp, h, eraseUpdatedAt]
      · simp [dispatchEvent, handleSubscriptionCanceled, hm]
  | invoicePaymentFailed i => exact ⟨rfl, rfl⟩
  | other t => exact ⟨rfl, rfl⟩

/-- C5: a subscription created/updated event carrying a user reference and
external status S gives that user tier pro exactly when S is active or
trialing and free otherwise, while the stored status is S itself — any
unrecognized value passes through unchanged instead of being rejected. -/
theorem handleSubscriptionUpdate_sets_tier_and_status
    (st : DBState) (sub : SubscriptionObj) (now : Nat) (uid : String)
    (hmeta : sub.metadata_userId = some uid) :
    ∀ r ∈ (handleSubscriptionUpdate st sub now).users, r.id = uid →
      r.subscription_tier =
        (if sub.status = "active" ∨ sub.status = "trialing" then "pro" else "free") ∧
      r.subscription_status = sub.status := by
  intro r hr hid
  simp only [handleSubscriptionUpdate, hmeta] at hr
  rw [List.mem_map] at hr
  obtain ⟨r0, hr0, rfl⟩ := hr
  by_cases h : r0.id = uid
  · constructor
    · simp [h]
    · by_cases ha : sub.status = "active" <;> simp [h, ha]
  · simp [h] at hid

/-- Witness for C5 at a concrete input: status paused is unrecognized, the
user drops to free, and paused is stored verbatim. -/
theorem handleSubscriptionUpdate_sets_tier_and_status_witness :
    w5Sub.metadata_userId = some "u1" ∧
    ∀ r ∈ (handleSubscriptionUpdate w5State w5Sub 9).users, r.id = "u1" →
      r.subscription_tier =
        (if w5Sub.status = "active" ∨ w5Sub.status = "trialing" then "pro" else "free") ∧
      r.subscription_status = w5Sub.status :=
  ⟨by decide,
   handleSubscriptionUpdate_sets_tier_and_status w5State w5Sub 9 "u1" (by decide)⟩

/-- C6: verifying a token freshly issued for a user before the 7-day window
elapses recovers exactly that userId and email, while a tampered token, a
structurally malformed token and an expired token all produce the one
undivided invalid outcome — and the middleware maps each of those failures
to the very same 403 response, so no caller can tell them apart. -/
theorem credential_roundtrip_and_uniform_invalid
    (mac : String → JwtPayload → String) (secret : String)
    (u e : String) (iat now now2 : Nat)
    (hfresh : now < iat + JWT_WINDOW_SECONDS)
    (hexp : iat + JWT_WINDOW_SECONDS ≤ now2)
    (p2 : JwtPayload) (s2 : String) (htamper : s2 ≠ mac secret p2)
    (raw : String) :
    jwtVerify mac secret now (jwtSign mac secret u e iat) = .ok u e ∧
    jwtVerify mac secret now (.signed p2 s2) = .invalid ∧
    jwtVerify mac secret now (.malformed raw) = .invalid ∧
    jwtVerify mac secret now2 (jwtSign mac secret u e iat) = .invalid ∧
    authenticateToken mac secret now (some (.signed p2 s2)) =
      .halt ⟨403, bodyInvalidOrExpiredToken⟩ ∧
    authenticateToken mac secret now (some (.malformed raw)) =
      .halt ⟨403, bodyInvalidOrExpiredToken⟩ ∧
    authenticateToken mac secret now2 (some (jwtSign mac secret u e iat)) =
      .halt ⟨403, bodyInvalidOrExpiredToken⟩ := by
  have hnotle : ¬ iat + JWT_WINDOW_SECONDS ≤ now := Nat.not_le.mpr hfresh
  refine ⟨?_, ?_, ?_, ?_, ?_, ?_, ?_⟩ <;>
    simp [jwtSign, jwtVerify, authenticateToken, htamper, hnotle, hexp]

/-- Witness for C6 at concrete inputs: a token issued at instant 0 verifies
at instant 5, and the forged, malformed and long-expired variants all fall
into the same invalid outcome and the same 403 response. -/
theorem credential_roundtrip_and_uniform_invalid_witness :
    (5 < 0 + JWT_WINDOW_SECONDS) ∧ (0 + JWT_WINDOW_SECONDS ≤ 999999999) ∧
    ("zz" ≠ w6Mac "k" ⟨"v", "w", 0⟩) ∧
    (jwtVerify w6Mac "k" 5 (jwtSign w6Mac "k" "u1" "a@b.com" 0) = .ok "u1" "a@b.com" ∧
      jwtVerify w6Mac "k" 5 (.signed ⟨"v", "w", 0⟩ "zz") = .invalid ∧
      jwtVerify w6Mac "k" 5 (.malformed "junk") = .invalid ∧
      jwtVerify w6Mac "k" 999999999 (jwtSign w6Mac "k" "u1" "a@b.com" 0) = .invalid ∧
      authenticateToken w6Mac "k" 5 (some (.signed ⟨"v", "w", 0⟩ "zz")) =
        .halt ⟨403, bodyInvalidOrExpiredToken⟩ ∧
      authenticateToken w6Mac "k" 5 (some (.malformed "junk")) =
        .halt ⟨403, bodyInvalidOrExpiredToken⟩ ∧
      authenticateToken w6Mac "k" 999999999 (some (jwtSign w6Mac "k" "u1" "a@b.com" 0)) =
        .halt ⟨403, bodyInvalidOrExpiredToken⟩) :=
  ⟨by decide, by decide, by decide,
   credential_roundtrip_and_uniform_invalid w6Mac "k" "u1" "a@b.com" 0 5 999999999
     (by decide) (by decide) ⟨"v", "w", 0⟩ "zz" (by decide) "junk"⟩

/-- C7: the forgot-password responses for a nonexistent email and for an
existing email are the same value, hence serialize to identical bytes (both
are status 200 with the one fixed body), and in the nonexistent case the
store is left entirely unchanged. -/
theorem forgotPassword_anti_enumeration
    (hash : String → String) (st1 st2 : DBState) (e1 e2 t1 t2 : String)
    (n1 n2 : Nat) (u : UserRow)
    (h1 : e1 ≠ "") (h2 : e2 ≠ "")
    (habsent : findByEmail st1 e1 = none)
    (hpresent : findByEmail st2 e2 = some u) :
    (forgotPassword hash st1 e1 t1 n1).2 = (forgotPassword hash st2 e2 t2 n2).2 ∧
    (forgotPassword hash st1 e1 t1 n1).1 = st1 := by
  constructor
  · simp [forgotPassword, h1, h2, habsent, hpresent]
  · simp [forgotPassword, h1, habsent]

/-- Witness for C7 at concrete inputs: the store knows a@b.com and not
x@y.com; the two responses coincide and the miss leaves the store as it
was. -/
theorem forgotPassword_anti_enumeration_witness :
    ("x@y.com" ≠ "") ∧ ("a@b.com" ≠ "") ∧
    findByEmail w7State "x@y.com" = none ∧
    findByEmail w7State "a@b.com" = some w7User ∧
    ((forgotPassword w7Hash w7State "x@y.com" "tokA" 1).2 =
        (forgotPassword w7Hash w7State "a@b.com" "tokB" 2).2 ∧
      (forgotPassword w7Hash w7State "x@y.com" "tokA" 1).1 = w7State) :=
  ⟨by decide, by decide, by decide, by decide,
   forgotPassword_anti_enumeration w7Hash w7State w7State "x@y.com" "a@b.com"
     "tokA" "tokB" 1 2 w7User (by decide) (by decide) (by decide) (by decide)⟩

theorem upsertResetToken_users (st : DBState) (uid h : String) (ex : Nat) :
    (upsertResetToken st uid h ex).users = st.users := by
  unfold upsertResetToken
  split <;> rfl

theorem upsertResetToken_resetTokens_eq (st : DBState) (uid h : String) (ex : Nat) :
    (upsertResetToken st uid h ex).resetTokens =
      if st.resetTokens.any (fun r => r.user_id = uid) then
        st.resetTokens.map (fun r =>
          if r.user_id = uid then { r with token_hash := h, expires_at := ex } else r)
      else st.resetTokens ++ [⟨uid, h, ex⟩] := by
  unfold upsertResetToken
  split <;> simp_all

theorem upsertResetToken_uids (st : DBState) (uid h : String) (ex : Nat) :
    (upsertResetToken st uid h ex).resetTokens.map (fun r => r.user_id) =
      if st.resetTokens.any (fun r => r.user_id = uid) then
        st.resetTokens.map (fun r => r.user_id)
      else st.resetTokens.map (fun r => r.user_id) ++ [uid] := by
  rw [upsertResetToken_resetTokens_eq]
  split
  · rw [List.map_map]
    apply List.map_congr_left
    intro r _
    by_cases hr : r.user_id = uid <;> simp [hr]
  · simp

theorem upsertResetToken_nodup (st : DBState) (uid h : String) (ex : Nat)
    (hinv : (st.resetTokens.map (fun r => r.user_id)).Nodup) :
    ((upsertResetToken st uid h ex).resetTokens.map (fun r => r.user_id)).Nodup := by
  rw [upsertResetToken_uids]
  split
  · exact hinv
  · next hany =>
    refine List.Nodup.append hinv (List.nodup_singleton uid) ?_
    intro a ha hb
    rw [List.mem_singleton] at hb
    subst hb
    rw [List.mem_map] at ha
    obtain ⟨r, hr, hru⟩ := ha
    exact hany (List.any_eq_true.mpr ⟨r, hr, by simp [hru]⟩)

theorem upsertResetToken_mem (st : DBState) (uid h : String) (ex : Nat) :
    ∀ r ∈ (upsertResetToken st uid h ex).resetTokens,
      (r.user_id = uid ∧ r.token_hash = h) ∨ (r ∈ st.resetTokens ∧ r.user_id ≠ uid) := by
  intro r hr
  rw [upsertResetToken_resetTokens_eq] at hr
  by_cases hany : st.resetTokens.any (fun r => r.user_id = uid)
  · rw [if_pos hany, List.mem_map] at hr
    obtain ⟨r0, hr0, rfl⟩ := hr
    by_cases hu : r0.user_id = uid
    · left
      simp [hu]
    · right
      simpa [hu] using hr0
  · rw [if_neg hany, List.mem_append] at hr
    rcases hr with hr | hr
    · right
      refine ⟨hr, fun he => hany (List.any_eq_true.mpr ⟨r, hr, by simp [he]⟩)⟩
    · left
      rw [List.mem_singleton] at hr
      subst hr
      exact ⟨rfl, rfl⟩

theorem forgotPassword_users (hash : String → String) (st : DBState)
    (e t : String) (n : Nat) : (forgotPassword hash st e t n).1.users = st.users := by
  by_cases he : e = ""
  · simp [forgotPassword, he]
  · cases hf : findByEmail st e <;>
      simp [forgotPassword, he, hf, upsertResetToken_users]

/-- C8: under the one-row-per-user invariant of the password_reset_tokens
table, two sequential reset requests for the same user preserve the
invariant (the upsert replaces rather than adds), and the hash issued by
the first request is gone afterwards, so the first secret no longer finds a
row — it fails validation. -/
theorem resetTokens_one_row_per_user
    (hash : String → String) (st : DBState) (e t1 t2 : String) (n1 n2 : Nat)
    (u : UserRow)
    (hinv : (st.resetTokens.map (fun r => r.user_id)).Nodup)
    (he : e ≠ "") (hu : findByEmail st e = some u)
    (hfresh : ∀ r ∈ st.resetTokens, r.token_hash ≠ hash t1)
    (hneq : hash t1 ≠ hash t2) :
    (((forgotPassword hash (forgotPassword hash st e t1 n1).1 e t2 n2).1.resetTokens.map
        (fun r => r.user_id)).Nodup) ∧
    findResetTokenByHash
      (forgotPassword hash (forgotPassword hash st e t1 n1).1 e t2 n2).1
      (hash t1) = none := by
  have hst1 : (forgotPassword hash st e t1 n1).1 =
      upsertResetToken st u.id (hash t1) (n1 + TOKEN_EXPIRATION_MS) := by
    simp [forgotPassword, he, hu]
  have hu1 : findByEmail (forgotPassword hash st e t1 n1).1 e = some u := by
    unfold findByEmail
    rw [forgotPassword_users]
    exact hu
  rw [hst1] at hu1
  rw [hst1]
  have hst2 : (forgotPassword hash
        (upsertResetToken st u.id (hash t1) (n1 + TOKEN_EXPIRATION_MS)) e t2 n2).1 =
      upsertResetToken (upsertResetToken st u.id (hash t1) (n1 + TOKEN_EXPIRATION_MS))
        u.id (hash t2) (n2 + TOKEN_EXPIRATION_MS) := by
    simp [forgotPassword, he, hu1]
  constructor
  · rw [hst2]
    exact upsertResetToken_nodup _ _ _ _ (upsertResetToken_nodup _ _ _ _ hinv)
  · rw [hst2]
    unfold findResetTokenByHash
    rw [List.find?_eq_none]
    intro r hr
    rcases upsertResetToken_mem _ _ _ _ r hr with ⟨_, hh⟩ | ⟨hr1, hne⟩
    · simp [hh]
      exact fun hcontra => hneq hcontra.symm
    · rcases upsertResetToken_mem _ _ _ _ r hr1 with ⟨huid, _⟩ | ⟨hr0, _⟩
      · exact absurd huid hne
      · simpa using hfresh r hr0

/-- Witness for C8 at concrete inputs: two requests for a@b.com replace the
row, the table still has distinct user ids, and the first hash finds
nothing. -/
theorem resetTokens_one_row_per_user_witness :
    ((w8State.resetTokens.map (fun r => r.user_id)).Nodup) ∧
    ("a@b.com" ≠ "") ∧
    findByEmail w8State "a@b.com" = some w8User ∧
    (∀ r ∈ w8State.resetTokens, r.token_hash ≠ w8Hash "tok1") ∧
    (w8Hash "tok1" ≠ w8Hash "tok2") ∧
    ((((forgotPassword w8Hash (forgotPassword w8Hash w8State "a@b.com" "tok1" 1).1
          "a@b.com" "tok2" 2).1.resetTokens.map (fun r => r.user_id)).Nodup) ∧
      findResetTokenByHash
        (forgotPassword w8Hash (forgotPassword w8Hash w8State "a@b.com" "tok1" 1).1
          "a@b.com" "tok2" 2).1 (w8Hash "tok1") = none) :=
  ⟨by decide, by decide, by decide, by decide, by decide,
   resetTokens_one_row_per_user w8Hash w8State "a@b.com" "tok1" "tok2" 1 2 w8User
     (by decide) (by decide) (by decide) (by decide) (by decide)⟩

/-- C9 counterexample: the claim promises the duplicate-email 409 for a
signup email equal to a stored one up to case and surrounding whitespace,
but a whitespace-padded duplicate is rejected by the email format check
with 400 before the store is ever consulted. -/
theorem signup_whitespace_duplicate_gets_400 :
    (signup c9BcryptHash c9SignJwt "id2" c9State " a@b.com " "password123" none 0).2.status
        = 400 ∧
    (signup c9BcryptHash c9SignJwt "id2" c9State " a@b.com " "password123" none 0).2 ≠
      ⟨409, bodyDuplicateEmail⟩ ∧
    (signup c9BcryptHash c9SignJwt "id2" c9State " a@b.com " "password123" none 0).1
        = c9State := by
  refine ⟨by decide, by decide, by decide⟩

/-- C9 amended: for a signup request passing the format check (which admits
no whitespace) whose email equals a stored email up to case, the store
uniqueness violation is translated into the specific 409 duplicate-email
response and no second row is created. -/
theorem signup_duplicate_email_conflict
    (bcryptHash : String → String) (signJwt : String → String → String)
    (genId : String) (st : DBState) (email password : String)
    (name : Option String) (now : Nat)
    (hre : emailRegexTest email = true)
    (hpw : 8 ≤ password.length)
    (hdup : ∃ r ∈ st.users, r.email = normalizeEmail email) :
    (signup bcryptHash signJwt genId st email password name now).2 =
      ⟨409, bodyDuplicateEmail⟩ ∧
    (signup bcryptHash signJwt genId st email password name now).1 = st := by
  have hemail : email ≠ "" := by
    intro h
    rw [h] at hre
    exact absurd hre (by decide)
  have hpass : password ≠ "" := by
    intro h
    rw [h] at hpw
    exact absurd hpw (by decide)
  have hlen : ¬ password.length < 8 := Nat.not_lt.mpr hpw
  have hany : st.users.any (fun r => r.email = normalizeEmail email) = true := by
    obtain ⟨r, hr, hre2⟩ := hdup
    exact List.any_eq_true.mpr ⟨r, hr, by simp [hre2]⟩
  simp [signup, userCreate, hemail, hpass, hre, hlen, hany]

/-- Witness for the amended C9 at concrete inputs: A@b.com duplicates the
stored a@b.com up to case and yields the 409 with no new row. -/
theorem signup_duplicate_email_conflict_witness :
    emailRegexTest "A@b.com" = true ∧
    8 ≤ ("password123" : String).length ∧
    (∃ r ∈ c9State.users, r.email = normalizeEmail "A@b.com") ∧
    ((signup c9BcryptHash c9SignJwt "id2" c9State "A@b.com" "password123" none 0).2 =
        ⟨409, bodyDuplicateEmail⟩ ∧
      (signup c9BcryptHash c9SignJwt "id2" c9State "A@b.com" "password123" none 0).1
        = c9State) :=
  ⟨by decide, by decide, by decide,
   signup_duplicate_email_conflict c9BcryptHash c9SignJwt "id2" c9State "A@b.com"
     "password123" none 0 (by decide) (by decide) (by decide)⟩

/-- C10: the token-validity probe never mutates the store — in particular a
row whose expiry has passed survives the probe — while the reset-password
consume path, on detecting expiry, deletes exactly the rows with the
presented hash and answers the expired 400. -/
theorem verifyResetToken_read_only_and_consume_deletes
    (hash : String → String) :
    (∀ st tok now, (verifyResetToken hash st tok now).1 = st) ∧
    (∀ st tok pw now rcd,
      tok ≠ "" → pw ≠ "" → 8 ≤ pw.length →
      findResetTokenByHash st (hash tok) = some rcd → rcd.expires_at < now →
      (resetPassword hash st tok pw now).1 = deleteResetTokenByHash st (hash tok) ∧
      (resetPassword hash st tok pw now).2 = ⟨400, bodyResetTokenExpired⟩) := by
  constructor
  · intro st tok now
    by_cases ht : tok = ""
    · simp [verifyResetToken, ht]
    · cases hf : findResetTokenByHash st (hash tok) with
      | none => simp [verifyResetToken, ht, hf]
      | some rcd =>
        by_cases hexp : rcd.expires_at < now <;> simp [verifyResetToken, ht, hf, hexp]
  · intro st tok pw now rcd ht hp hlen hf hexp
    have hl : ¬ pw.length < 8 := Nat.not_lt.mpr hlen
    simp [resetPassword, ht, hp, hl, hf, hexp]

/-- Witness for C10 at concrete inputs: a store whose only token row
expired at instant 100 is probed and then consumed at instant 200. -/
theorem verifyResetToken_read_only_witness :
    ((verifyResetToken w10Hash w10State "tok-1" 200).1 = w10State) ∧
    ("tok-1" ≠ "") ∧ ("newpassword1" ≠ "") ∧
    (8 ≤ ("newpassword1" : String).length) ∧
    (findResetTokenByHash w10State (w10Hash "tok-1") =
      some ⟨"u1", w10Hash "tok-1", 100⟩) ∧
    ((100 : Nat) < 200) ∧
    ((resetPassword w10Hash w10State "tok-1" "newpassword1" 200).1 =
        deleteResetTokenByHash w10State (w10Hash "tok-1") ∧
      (resetPassword w10Hash w10State "tok-1" "newpassword1" 200).2 =
        ⟨400, bodyResetTokenExpired⟩) :=
  ⟨(verifyResetToken_read_only_and_consume_deletes w10Hash).1 w10State "tok-1" 200,
   by decide, by decide, by decide, by decide, by decide,
   (verifyResetToken_read_only_and_consume_deletes w10Hash).2 w10State "tok-1"
     "newpassword1" 200 ⟨"u1", w10Hash "tok-1", 100⟩
     (by decide) (by decide) (by decide) (by decide) (by decide)⟩
